import Mathlib

/-!
Shallow embedding of the WLED infra-red remote handler (`wled00/ir.cpp`).

Machine integers are modelled as `Nat` with explicit reduction modulo
`2^32` (for `uint32_t` / `unsigned long`) or `2^8` (for `byte`) where
overflow matters.  The `millis()` clock is passed in explicitly; a raw
clock reading `now : Nat` stands for real elapsed milliseconds and the
hardware counter value is `now % 2^32`.  Side effects (running the bound
action function, emitting the `colorUpdated` notification) are recorded
as an explicit event trace, in the order the source performs them.
-/

namespace WledIR

/-- The constant `2^32`, the modulus of `uint32_t` / `unsigned long` arithmetic. -/
def MOD32 : Nat := 4294967296

/-- Wrapping 32-bit subtraction, as computed by `millis() - t` on
`unsigned long` operands. -/
def submod32 (a b : Nat) : Nat := (a % MOD32 + MOD32 - b % MOD32) % MOD32

-- ===========================================================================
-- ActionType enumeration (ir.cpp lines 310-372), as the integer values the
-- C enum assigns in declaration order.
-- ===========================================================================

def Action_PowerOff : Nat := 0
def Action_PowerToggle : Nat := 2
def Action_Bright_Up : Nat := 6
def Action_Bright_Down : Nat := 7
def Action_Intensity_Down : Nat := 17
def Action_Preset_1 : Nat := 18
def Action_Preset_10 : Nat := 27
def Action_Preset_Next : Nat := 28
def Action_Color_Rotate : Nat := 53
def Action_Count : Nat := 54

/-- The `is_repeatable` flag of each entry of the `actions` array
(ir.cpp lines 378-438), in declaration order: `true` exactly where the
constructor call passes a third argument `true`. -/
def actionsRepeatable : List Bool :=
  [ false, false, false,            -- Power Off / On / Toggle
    false, false, false,            -- Power Off/On/Toggle White
    true, true,                     -- Brightness Up / Down
    false, false, false, false,     -- Brightness 25/50/75/100%
    true, true,                     -- White Brightness Up / Down
    true, true,                     -- Speed Up / Down
    true, true,                     -- Intensity Up / Down
    false, false, false, false, false,
    false, false, false, false, false,  -- Preset 1 .. Preset 10
    false, false,                   -- Next / Prev Preset
    false, false,                   -- Next / Prev Palette
    false, false, false, false, false, false, false, false, false, false,
    false, false, false, false, false, false, false, false, false, false,
    false, false ]                  -- the 22 color actions

/-- Whether the `Action` at index `a` of the `actions` array was
constructed with `is_repeatable = true`. -/
def is_repeatable (a : Nat) : Bool := actionsRepeatable.getD a false

-- ===========================================================================
-- Repeat/debounce state of `struct Action` (static members, ir.cpp 293-300)
-- ===========================================================================

/-- The static members `_lastRepeatableAction` (a pointer into `actions`,
modelled by the index of the pointed-to `Action`, `none` for null),
`_repeat_count` (`uint8_t`) and `_last_action_time` (`unsigned long`). -/
structure RepeatState where
  lastAction : Option Nat
  repeat_count : Nat
  last_action_time : Nat
deriving Repr, DecidableEq

/-- The side effects `Action::operator()` can perform, in trace order:
storing a `millis()` reading into `_last_action_time`, running the bound
`_action_fn`, and emitting the `colorUpdated(NOTIFIER_CALL_MODE_BUTTON)`
notification. -/
inductive Event where
  | recordTime (t : Nat)
  | runOp (a : Nat)
  | notify
deriving Repr, DecidableEq

/-- Translation of `Action::operator()` (ir.cpp lines 257-276) for the action at index
`a` of the `actions` array, invoked when `millis()` reads `now % 2^32`.
Returns the updated static state together with the trace of side effects
in source order (`_last_action_time = millis()`, then `_action_fn()`,
then `colorUpdated(...)`); a suppressed invocation has an empty trace. -/
def invokeAction (a now : Nat) (s : RepeatState) : RepeatState × List Event :=
  if s.lastAction = some a then
    if is_repeatable a = false ∧ submod32 now s.last_action_time < 500 then
      (s, [])
    else
      ({ s with repeat_count := (s.repeat_count + 1) % 256,
                last_action_time := now % MOD32 },
       [Event.recordTime (now % MOD32), Event.runOp a, Event.notify])
  else
    ({ lastAction := some a, repeat_count := 1, last_action_time := now % MOD32 },
     [Event.recordTime (now % MOD32), Event.runOp a, Event.notify])

/-- Translation of `Action::repeatLast` (ir.cpp lines 279-282): re-invoke
`_lastRepeatableAction` if non-null, otherwise do nothing. -/
def repeatLast (now : Nat) (s : RepeatState) : RepeatState × List Event :=
  match s.lastAction with
  | some a => invokeAction a now s
  | none => (s, [])

/-- Translation of `Action::clearLastRepeatableAction` (ir.cpp line 284). -/
def clearLastRepeatableAction (s : RepeatState) : RepeatState :=
  { s with lastAction := none }

-- ===========================================================================
-- KeyMap profiles and code resolution (ir.cpp lines 445-448, 813-820)
-- ===========================================================================

/-- Translation of `struct KeyMap`: one profile entry pairing a raw 32-bit IR code with
an `ActionType` (ir.cpp lines 445-448). -/
structure KeyMap where
  irCode : Nat
  actionType : Nat
deriving Repr, DecidableEq

/-- The lookup loop of `handleIRCode` (ir.cpp lines 813-820): scan the
profile in declaration order; stop with `none` at the first entry whose
stored code is 0 (the sentinel), and with `some` of the entry's action
type at the first entry whose stored code equals `irCode`. -/
def resolve (profile : List KeyMap) (irCode : Nat) : Option Nat :=
  match profile with
  | [] => none
  | k :: rest =>
    if k.irCode = 0 then none
    else if k.irCode = irCode then some k.actionType
    else resolve rest irCode

/-- Translation of `handleIRCode` (ir.cpp lines 803-825), parameterised by the active
profile `buttonActions[irEnabled]`: the all-ones repeat code re-invokes
the last action without a lookup; a resolved code invokes its action; a
lookup miss clears `_lastRepeatableAction` and performs nothing. -/
def handleIRCode (profile : List KeyMap) (irCode now : Nat) (s : RepeatState) :
    RepeatState × List Event :=
  if irCode = 0xFFFFFFFF then
    repeatLast now s
  else
    match resolve profile irCode with
    | some t => invokeAction t now s
    | none => (clearLastRepeatableAction s, [])

-- ===========================================================================
-- presetButtonsConfigured (ir.cpp lines 785-799)
-- ===========================================================================

/-- The value `ConfigurableRemoteCount`, the last value of the `RemoteType` enum
(ir.cpp lines 748-764): 12 remote slots (slot 0 = disabled). -/
def ConfigurableRemoteCount : Nat := 12

/-- The counting loop of `presetButtonsConfigured` (ir.cpp lines 793-796):
walk the profile until the sentinel (code 0) and count the entries whose
action type lies in the inclusive range
`[Action_Preset_10, Action_Preset_10]`. -/
def countPresetButtons (profile : List KeyMap) : Nat :=
  match profile with
  | [] => 0
  | k :: rest =>
    if k.irCode = 0 then 0
    else (if Action_Preset_10 ≤ k.actionType ∧ k.actionType ≤ Action_Preset_10
          then 1 else 0) + countPresetButtons rest

/-- Translation of `presetButtonsConfigured` (ir.cpp lines 785-799).  `cache` models the
static `byte results[ConfigurableRemoteCount]` array (all zero at process
start); `buttonActions` maps a selector to its profile.  A zero cache
slot is taken to mean "uninitialized", so the profile is (re)counted into
the slot, the increments wrapping as `byte` arithmetic.  Returns the
value of `results[irEnabled]`, the updated cache, and whether the
profile was scanned on this call. -/
def presetButtonsConfigured (buttonActions : Nat → List KeyMap)
    (irEnabled : Nat) (cache : List Nat) : Nat × List Nat × Bool :=
  if cache.getD irEnabled 0 = 0 then
    let c := countPresetButtons (buttonActions irEnabled) % 256
    (c, cache.set irEnabled c, true)
  else
    (cache.getD irEnabled 0, cache, false)

-- ===========================================================================
-- Receiver poller `handleIR` (ir.cpp lines 831-869)
-- ===========================================================================

/-- The static locals of `handleIR`: whether the `IRrecv` object exists
(`irrecv != 0`) and the `unsigned long` `irCheckedTime`. -/
structure PollState where
  held : Bool
  irCheckedTime : Nat
deriving Repr, DecidableEq

/-- The observable outcome of one `handleIR` step: the new static state,
whether `irrecv->decode(&results)` was called (a decode attempt), and
the code passed on to `handleIRCode`, if any. -/
structure PollResult where
  state : PollState
  attempted : Bool
  dispatched : Option Nat
deriving Repr, DecidableEq

/-- One step of `handleIR` (ir.cpp lines 831-869), invoked when the
selector `irEnabled` has its given value and `millis()` reads
`now % 2^32`.  `decodeResult` is what the decoder would deliver were it
asked this step: `none` when `irrecv->decode` would return false, and
`some v` for a decoded `results.value` (cast to `uint32_t`). -/
def handleIR (irEnabled now : Nat) (decodeResult : Option Nat)
    (s : PollState) : PollResult :=
  if irEnabled = 0 ∨ ConfigurableRemoteCount ≤ irEnabled then
    ⟨⟨false, s.irCheckedTime⟩, false, none⟩
  else if s.held = false then
    ⟨⟨true, s.irCheckedTime⟩, false, none⟩
  else if submod32 now s.irCheckedTime < 120 then
    ⟨s, false, none⟩
  else
    let s' : PollState := ⟨s.held, now % MOD32⟩
    match decodeResult with
    | none => ⟨s', true, none⟩
    | some v =>
      if v % MOD32 = 0 then ⟨s', true, none⟩
      else ⟨s', true, some (v % MOD32)⟩

-- ===========================================================================
-- actionChangePreset / actionChangePalette (ir.cpp lines 224-236)
-- ===========================================================================

/-- Translation of `actionChangePreset` (ir.cpp lines 224-226):
`effectCurrent = ((int16_t)effectCurrent + offset) % MODE_COUNT`, where
`effectCurrent` is a `byte`, `offset` a `uint8_t` parameter, and the
result is stored back into the `byte`. -/
def actionChangePreset (MODE_COUNT effectCurrent offset : Nat) : Nat :=
  ((effectCurrent % 256 + offset % 256) % MODE_COUNT) % 256

/-- Translation of `actionDecPreset` (ir.cpp line 229): calls `actionChangePreset(-1)`;
the `int` literal `-1` converts to the `uint8_t` parameter as 255. -/
def actionDecPreset (MODE_COUNT effectCurrent : Nat) : Nat :=
  actionChangePreset MODE_COUNT effectCurrent 255

/-- Translation of `actionChangePalette` (ir.cpp lines 231-233): as
`actionChangePreset` but on `effectPalette` modulo
`strip.getPaletteCount()`. -/
def actionChangePalette (paletteCount effectPalette offset : Nat) : Nat :=
  ((effectPalette % 256 + offset % 256) % paletteCount) % 256

/-- Translation of `actionDecPalette` (ir.cpp line 236): calls `actionChangePalette(-1)`;
`-1` converts to the `uint8_t` parameter as 255. -/
def actionDecPalette (paletteCount effectPalette : Nat) : Nat :=
  actionChangePalette paletteCount effectPalette 255

-- ===========================================================================
-- Helper lemmas
-- ===========================================================================

lemma submod32_add (a d : Nat) : submod32 (a + d) a = d % MOD32 := by
  simp only [submod32, MOD32]
  omega

lemma submod32_mod_right (a b : Nat) : submod32 a (b % MOD32) = submod32 a b := by
  simp only [submod32, MOD32]
  omega

-- ===========================================================================
-- Claim theorems
-- ===========================================================================

/-- C1: an invocation of the action recorded as
`_lastRepeatableAction`, when the action is non-repeatable and less than
500ms have elapsed on the 32-bit millisecond clock since
`_last_action_time`, is suppressed entirely — the bound operation does
not run, no notification is emitted, and the repeat state is returned
unchanged; if instead the action is repeatable or at least 500ms have
elapsed, the invocation runs the bound operation and emits the
`colorUpdated` notification. -/
theorem invokeAction_repeat_debounce (a now : Nat) (s : RepeatState)
    (hlast : s.lastAction = some a) :
    (is_repeatable a = false → submod32 now s.last_action_time < 500 →
      invokeAction a now s = (s, []))
    ∧ ((is_repeatable a = true ∨ 500 ≤ submod32 now s.last_action_time) →
      (invokeAction a now s).2 =
        [Event.recordTime (now % MOD32), Event.runOp a, Event.notify]) := by
  constructor
  · intro h1 h2
    simp [invokeAction, hlast, h1, h2]
  · intro h
    rcases h with h | h
    · simp [invokeAction, hlast, h]
    · simp [invokeAction, hlast, Nat.not_lt.mpr h]

/-- C1 witness: the non-repeatable Power Toggle action (index 2)
re-fired 200ms after being recorded is suppressed, and the repeatable
Brightness Up action (index 6) re-fired 1ms later executes and
notifies. -/
theorem invokeAction_repeat_debounce_instance :
    invokeAction 2 1200 ⟨some 2, 1, 1000⟩ = (⟨some 2, 1, 1000⟩, [])
    ∧ (invokeAction 6 1001 ⟨some 6, 1, 1000⟩).2 =
        [Event.recordTime 1001, Event.runOp 6, Event.notify] :=
  ⟨(invokeAction_repeat_debounce 2 1200 ⟨some 2, 1, 1000⟩ rfl).1
      (by decide) (by decide),
   (invokeAction_repeat_debounce 6 1001 ⟨some 6, 1, 1000⟩ rfl).2
      (Or.inl (by decide))⟩

/-- C2: for every profile and raw code, resolution equals scanning the
entries that precede the first zero-code sentinel in declaration order
and taking the first whose stored code equals the raw code (so the first
match wins on duplicates, and reaching the sentinel yields `none`);
moreover raw code 0 is never recognized. -/
theorem resolve_first_match_sentinel (profile : List KeyMap) (raw : Nat) :
    resolve profile raw =
      Option.map KeyMap.actionType
        (List.find? (fun k => k.irCode == raw)
          (List.takeWhile (fun k => !(k.irCode == 0)) profile))
    ∧ resolve profile 0 = none := by
  constructor
  · induction profile with
    | nil => rfl
    | cons k rest ih =>
      by_cases h0 : k.irCode = 0
      · simp [resolve, h0]
      · by_cases hr : k.irCode = raw
        · have hraw : ¬raw = 0 := by rw [← hr]; exact h0
          simp [resolve, h0, hr, hraw]
        · simp [resolve, h0, hr, ih]
  · induction profile with
    | nil => rfl
    | cons k rest ih =>
      by_cases h0 : k.irCode = 0
      · simp [resolve, h0]
      · simp [resolve, h0, ih]

/-- C3: dispatching a raw code that is neither the repeat code
`0xFFFFFFFF` nor present in the active profile invokes no action, emits
no event, and clears `_lastRepeatableAction` (leaving the counter and
timestamp untouched); after that, a repeat-code signal is a no-op for
any profile. -/
theorem handleIRCode_miss_clears_last (profile : List KeyMap)
    (irCode now now2 : Nat) (s : RepeatState)
    (hmiss : resolve profile irCode = none)
    (hrep : irCode ≠ 0xFFFFFFFF) :
    handleIRCode profile irCode now s = ({ s with lastAction := none }, [])
    ∧ ∀ profile2 : List KeyMap,
        handleIRCode profile2 0xFFFFFFFF now2 { s with lastAction := none } =
          ({ s with lastAction := none }, []) := by
  constructor
  · simp [handleIRCode, hrep, hmiss, clearLastRepeatableAction]
  · intro profile2
    simp [handleIRCode, repeatLast]

/-- C3 witness: code 7 misses the one-entry profile `[(5, PowerOff)]`,
so the last-action record (PowerToggle) is cleared with no event, and a
following repeat code does nothing. -/
theorem handleIRCode_miss_clears_last_instance :
    handleIRCode [⟨5, 0⟩, ⟨0, 0⟩] 7 1000 ⟨some 2, 3, 100⟩ =
      (⟨none, 3, 100⟩, [])
    ∧ handleIRCode [⟨5, 0⟩, ⟨0, 0⟩] 4294967295 2000 ⟨none, 3, 100⟩ =
      (⟨none, 3, 100⟩, []) :=
  ⟨(handleIRCode_miss_clears_last [⟨5, 0⟩, ⟨0, 0⟩] 7 1000 2000
      ⟨some 2, 3, 100⟩ (by decide) (by decide)).1,
   (handleIRCode_miss_clears_last [⟨5, 0⟩, ⟨0, 0⟩] 7 1000 2000
      ⟨some 2, 3, 100⟩ (by decide) (by decide)).2 [⟨5, 0⟩, ⟨0, 0⟩]⟩

/-- C4: dispatching the repeat code `0xFFFFFFFF` never consults the
profile (the outcome is the same for any two profiles); with no recorded
last action it is a no-op with no events, and with a recorded last
action it re-invokes exactly that action. -/
theorem handleIRCode_repeat_code (p q : List KeyMap) (now : Nat)
    (s : RepeatState) :
    handleIRCode p 0xFFFFFFFF now s = handleIRCode q 0xFFFFFFFF now s
    ∧ (s.lastAction = none → handleIRCode p 0xFFFFFFFF now s = (s, []))
    ∧ ∀ a : Nat, s.lastAction = some a →
        handleIRCode p 0xFFFFFFFF now s = invokeAction a now s := by
  refine ⟨by simp [handleIRCode], ?_, ?_⟩
  · intro h
    simp [handleIRCode, repeatLast, h]
  · intro a h
    simp [handleIRCode, repeatLast, h]

/-- C4 witness: repeat code with empty repeat state is a no-op and
profile-independent; with PowerToggle recorded it re-invokes
PowerToggle. -/
theorem handleIRCode_repeat_code_instance :
    handleIRCode [⟨1, 2⟩, ⟨0, 0⟩] 4294967295 50 ⟨none, 0, 0⟩ =
      handleIRCode [] 4294967295 50 ⟨none, 0, 0⟩
    ∧ handleIRCode [⟨1, 2⟩, ⟨0, 0⟩] 4294967295 50 ⟨none, 0, 0⟩ =
      (⟨none, 0, 0⟩, [])
    ∧ handleIRCode [] 4294967295 50 ⟨some 2, 1, 0⟩ =
      invokeAction 2 50 ⟨some 2, 1, 0⟩ :=
  ⟨(handleIRCode_repeat_code [⟨1, 2⟩, ⟨0, 0⟩] [] 50 ⟨none, 0, 0⟩).1,
   (handleIRCode_repeat_code [⟨1, 2⟩, ⟨0, 0⟩] [] 50 ⟨none, 0, 0⟩).2.1 rfl,
   (handleIRCode_repeat_code [] [⟨1, 2⟩, ⟨0, 0⟩] 50 ⟨some 2, 1, 0⟩).2.2 2 rfl⟩

/-- C8: every executed (non-suppressed) invocation produces the trace
`[recordTime now, runOp, notify]` — the `_last_action_time = millis()`
store occurs strictly before the bound operation runs, and the value
recorded (also left in the state) is the clock reading `now` taken on
entry, so time the bound operation itself consumes is excluded from the
debounce window measured at the next invocation. -/
theorem invokeAction_timestamp_before_op (a now : Nat) (s : RepeatState)
    (hexec : (invokeAction a now s).2 ≠ []) :
    (invokeAction a now s).2 =
      [Event.recordTime (now % MOD32), Event.runOp a, Event.notify]
    ∧ (invokeAction a now s).1.last_action_time = now % MOD32 := by
  by_cases hlast : s.lastAction = some a
  · by_cases hsup : is_repeatable a = false ∧ submod32 now s.last_action_time < 500
    · exact absurd (by simp [invokeAction, hlast, hsup]) hexec
    · simp [invokeAction, hlast, hsup]
  · simp [invokeAction, hlast]

/-- C8 witness: a fresh invocation of Power Off at clock 5 records
timestamp 5 before the operation and notification in its trace. -/
theorem invokeAction_timestamp_before_op_instance :
    (invokeAction 0 5 ⟨none, 0, 0⟩).2 =
      [Event.recordTime 5, Event.runOp 0, Event.notify]
    ∧ (invokeAction 0 5 ⟨none, 0, 0⟩).1.last_action_time = 5 :=
  invokeAction_timestamp_before_op 0 5 ⟨none, 0, 0⟩ (by decide)

/-- C5: a poller step with selector 0 or at least
`ConfigurableRemoteCount` releases the decoder resource (if held),
attempts no decode and dispatches nothing, and a second step with the
same selector changes nothing further; a step with a valid selector
while no resource is held acquires the resource and returns without a
decode attempt on that same step. -/
theorem handleIR_disabled_warmup (sel now now2 : Nat) (d d2 : Option Nat)
    (s : PollState) :
    (sel = 0 ∨ ConfigurableRemoteCount ≤ sel →
      handleIR sel now d s = ⟨⟨false, s.irCheckedTime⟩, false, none⟩
      ∧ handleIR sel now2 d2 (handleIR sel now d s).state =
          ⟨(handleIR sel now d s).state, false, none⟩)
    ∧ (¬(sel = 0 ∨ ConfigurableRemoteCount ≤ sel) → s.held = false →
      handleIR sel now d s = ⟨⟨true, s.irCheckedTime⟩, false, none⟩) := by
  constructor
  · intro h
    have h1 : handleIR sel now d s = ⟨⟨false, s.irCheckedTime⟩, false, none⟩ := by
      unfold handleIR
      rw [if_pos h]
    refine ⟨h1, ?_⟩
    rw [h1]
    unfold handleIR
    rw [if_pos h]
  · intro h hheld
    unfold handleIR
    rw [if_neg h, if_pos hheld]

/-- C5 witness: with selector 0 and the resource held, one step releases
it, a second step is a no-op; with the valid selector 3 and nothing
held, a step acquires the resource without a decode attempt. -/
theorem handleIR_disabled_warmup_instance :
    handleIR 0 500 (some 9) ⟨true, 40⟩ = ⟨⟨false, 40⟩, false, none⟩
    ∧ handleIR 0 700 none (handleIR 0 500 (some 9) ⟨true, 40⟩).state =
        ⟨(handleIR 0 500 (some 9) ⟨true, 40⟩).state, false, none⟩
    ∧ handleIR 3 500 (some 9) ⟨false, 40⟩ = ⟨⟨true, 40⟩, false, none⟩ :=
  ⟨((handleIR_disabled_warmup 0 500 700 (some 9) none ⟨true, 40⟩).1
      (Or.inl rfl)).1,
   ((handleIR_disabled_warmup 0 500 700 (some 9) none ⟨true, 40⟩).1
      (Or.inl rfl)).2,
   (handleIR_disabled_warmup 3 500 700 (some 9) none ⟨false, 40⟩).2
      (by decide) rfl⟩

lemma handleIR_attempted_state (sel now : Nat) (d : Option Nat) (s : PollState)
    (h : (handleIR sel now d s).attempted = true) :
    (handleIR sel now d s).state = ⟨true, now % MOD32⟩
    ∧ s.held = true ∧ 120 ≤ submod32 now s.irCheckedTime := by
  unfold handleIR at h ⊢
  by_cases h1 : sel = 0 ∨ ConfigurableRemoteCount ≤ sel
  · rw [if_pos h1] at h
    exact absurd h (by simp)
  · rw [if_neg h1] at h ⊢
    by_cases h2 : s.held = false
    · rw [if_pos h2] at h
      exact absurd h (by simp)
    · rw [if_neg h2] at h ⊢
      have hheld : s.held = true := by
        cases hb : s.held
        · exact absurd hb h2
        · rfl
      by_cases h3 : submod32 now s.irCheckedTime < 120
      · rw [if_pos h3] at h
        exact absurd h (by simp)
      · rw [if_neg h3] at h ⊢
        refine ⟨?_, hheld, Nat.not_lt.mp h3⟩
        cases d with
        | none => simp [hheld]
        | some v =>
          by_cases hv : v % MOD32 = 0 <;> simp [hheld, hv]

/-- C6: two poller steps separated by fewer than 120 clock milliseconds
perform at most one decode attempt between them; a step taken while
armed before 120ms have elapsed since the last poll attempt leaves the
state untouched with no decode attempt; and any step that does attempt
a decode first records the current clock reading as the new last-poll
time. -/
theorem handleIR_poll_rate_limit (sel1 sel2 t dlt : Nat)
    (d1 d2 : Option Nat) (s : PollState) (hd : dlt < 120) :
    ¬((handleIR sel1 t d1 s).attempted = true
      ∧ (handleIR sel2 (t + dlt) d2 (handleIR sel1 t d1 s).state).attempted
          = true)
    ∧ (∀ sel now : Nat, ∀ dd : Option Nat, ∀ u : PollState,
        u.held = true → ¬(sel = 0 ∨ ConfigurableRemoteCount ≤ sel) →
        submod32 now u.irCheckedTime < 120 →
        handleIR sel now dd u = ⟨u, false, none⟩)
    ∧ (∀ sel now : Nat, ∀ dd : Option Nat, ∀ u : PollState,
        (handleIR sel now dd u).attempted = true →
        (handleIR sel now dd u).state.irCheckedTime = now % MOD32) := by
  refine ⟨?_, ?_, ?_⟩
  · rintro ⟨ha1, ha2⟩
    obtain ⟨hst, -, -⟩ := handleIR_attempted_state sel1 t d1 s ha1
    rw [hst] at ha2
    obtain ⟨-, -, h120⟩ :=
      handleIR_attempted_state sel2 (t + dlt) d2 ⟨true, t % MOD32⟩ ha2
    rw [show (PollState.mk true (t % MOD32)).irCheckedTime = t % MOD32 from rfl,
        submod32_mod_right, submod32_add] at h120
    have : dlt % MOD32 < 120 := lt_of_le_of_lt (Nat.mod_le dlt MOD32) hd
    omega
  · intro sel now dd u hheld hsel h120
    unfold handleIR
    rw [if_neg hsel, if_neg (by simp [hheld]), if_pos h120]
  · intro sel now dd u hatt
    rw [(handleIR_attempted_state sel now dd u hatt).1]

/-- C6 witness: an armed session that polls at clock 1000 and is stepped
again at 1100 attempts only one decode; the sub-120ms step is inert; the
polling step records 1000 as the last-poll time. -/
theorem handleIR_poll_rate_limit_instance :
    ¬((handleIR 3 1000 (some 9) ⟨true, 0⟩).attempted = true
      ∧ (handleIR 3 1100 (some 9)
          (handleIR 3 1000 (some 9) ⟨true, 0⟩).state).attempted = true)
    ∧ handleIR 3 1100 (some 9) ⟨true, 1000⟩ = ⟨⟨true, 1000⟩, false, none⟩
    ∧ (handleIR 3 1000 (some 9) ⟨true, 0⟩).state.irCheckedTime = 1000 :=
  ⟨(handleIR_poll_rate_limit 3 3 1000 100 (some 9) (some 9) ⟨true, 0⟩
      (by decide)).1,
   (handleIR_poll_rate_limit 3 3 1000 100 (some 9) (some 9) ⟨true, 0⟩
      (by decide)).2.1 3 1100 (some 9) ⟨true, 1000⟩ rfl (by decide) (by decide),
   (handleIR_poll_rate_limit 3 3 1000 100 (some 9) (some 9) ⟨true, 0⟩
      (by decide)).2.2 3 1000 (some 9) ⟨true, 0⟩ (by decide)⟩

set_option maxRecDepth 8000

/-- C9 counterexample: in the uninterrupted run that invokes the
repeatable Brightness Up action freshly and then 255 more times, the
`uint8_t` repeat counter reads 255 after the 254th repeat but wraps to 0
on the 255th, so it does not strictly increase on every subsequent
repeat invocation. -/
theorem repeat_count_wrap_cex :
    (Nat.iterate (fun u => (invokeAction Action_Bright_Up 0 u).1) 254
        ((invokeAction Action_Bright_Up 0 ⟨none, 0, 0⟩).1)).repeat_count = 255
    ∧ (Nat.iterate (fun u => (invokeAction Action_Bright_Up 0 u).1) 255
        ((invokeAction Action_Bright_Up 0 ⟨none, 0, 0⟩).1)).repeat_count = 0
    ∧ ¬((Nat.iterate (fun u => (invokeAction Action_Bright_Up 0 u).1) 254
          ((invokeAction Action_Bright_Up 0 ⟨none, 0, 0⟩).1)).repeat_count
        < (Nat.iterate (fun u => (invokeAction Action_Bright_Up 0 u).1) 255
          ((invokeAction Action_Bright_Up 0 ⟨none, 0, 0⟩).1)).repeat_count) := by
  refine ⟨by decide, by decide, by decide⟩

/-- C9 (amended): a repeatable action always executes, both on a fresh
invocation (counter set to 1) and on every repeat invocation regardless
of timing; each repeat sets the `uint8_t` counter to its successor
modulo 256, so the counter strictly increases as long as it is below
255 and wraps to 0 after 255. -/
theorem invokeAction_repeatable_count (a now : Nat) (s : RepeatState)
    (hrep : is_repeatable a = true) :
    (s.lastAction = some a →
      (invokeAction a now s).2 ≠ []
      ∧ (invokeAction a now s).1.repeat_count = (s.repeat_count + 1) % 256
      ∧ (s.repeat_count < 255 →
          s.repeat_count < (invokeAction a now s).1.repeat_count))
    ∧ (s.lastAction ≠ some a →
      (invokeAction a now s).2 ≠ []
      ∧ (invokeAction a now s).1.repeat_count = 1) := by
  constructor
  · intro hlast
    refine ⟨by simp [invokeAction, hlast, hrep], by simp [invokeAction, hlast, hrep], ?_⟩
    intro h255
    have hmod : (s.repeat_count + 1) % 256 = s.repeat_count + 1 :=
      Nat.mod_eq_of_lt (by omega)
    simp [invokeAction, hlast, hrep, hmod]
  · intro hlast
    exact ⟨by simp [invokeAction, hlast], by simp [invokeAction, hlast]⟩

/-- C9 witness: a rapid repeat of Brightness Up 10ms after the previous
one executes, bumps the counter from 3 to 4, and a fresh invocation of
it sets the counter to 1. -/
theorem invokeAction_repeatable_count_instance :
    (invokeAction 6 1010 ⟨some 6, 3, 1000⟩).2 ≠ []
    ∧ (invokeAction 6 1010 ⟨some 6, 3, 1000⟩).1.repeat_count = (3 + 1) % 256
    ∧ 3 < (invokeAction 6 1010 ⟨some 6, 3, 1000⟩).1.repeat_count
    ∧ (invokeAction 6 1010 ⟨none, 0, 0⟩).2 ≠ []
    ∧ (invokeAction 6 1010 ⟨none, 0, 0⟩).1.repeat_count = 1 :=
  ⟨((invokeAction_repeatable_count 6 1010 ⟨some 6, 3, 1000⟩ rfl).1 rfl).1,
   ((invokeAction_repeatable_count 6 1010 ⟨some 6, 3, 1000⟩ rfl).1 rfl).2.1,
   ((invokeAction_repeatable_count 6 1010 ⟨some 6, 3, 1000⟩ rfl).1 rfl).2.2
     (by decide),
   ((invokeAction_repeatable_count 6 1010 ⟨none, 0, 0⟩ rfl).2 (by decide)).1,
   ((invokeAction_repeatable_count 6 1010 ⟨none, 0, 0⟩ rfl).2 (by decide)).2⟩

lemma getD_set_self (l : List Nat) (i v : Nat) (h : i < l.length) :
    (l.set i v).getD i 0 = v := by
  induction l generalizing i with
  | nil => simp at h
  | cons x xs ih =>
    cases i with
    | zero => rfl
    | succ n => simpa using ih n (by simpa using h)

lemma countPresetButtons_eq_countP (profile : List KeyMap) :
    countPresetButtons profile =
      List.countP (fun k => k.actionType == Action_Preset_10)
        (List.takeWhile (fun k => !(k.irCode == 0)) profile) := by
  induction profile with
  | nil => rfl
  | cons k rest ih =>
    by_cases h0 : k.irCode = 0
    · simp [countPresetButtons, h0]
    · by_cases hp : Action_Preset_10 ≤ k.actionType
          ∧ k.actionType ≤ Action_Preset_10
      · have hk : k.actionType = Action_Preset_10 :=
          Nat.le_antisymm hp.2 hp.1
        simp [countPresetButtons, h0, hp, hk, List.countP_cons, ih]
        omega
      · have hk : ¬k.actionType = Action_Preset_10 := by
          intro he
          exact hp ⟨Nat.le_of_eq he.symm, Nat.le_of_eq he⟩
        simp [countPresetButtons, h0, hp, hk, List.countP_cons, ih]

/-- C7 counterexample: for a remote profile with no tenth-preset entry
(here the selected slot maps code 1 to Power Toggle only) the computed
count 0 equals the "uninitialized" cache marker, so a second call after
the first still scans the profile — the result is not returned from the
cache without rescanning. -/
theorem presetButtons_rescan_cex :
    (presetButtonsConfigured (fun _ => [⟨1, 2⟩, ⟨0, 0⟩]) 6
      (presetButtonsConfigured (fun _ => [⟨1, 2⟩, ⟨0, 0⟩]) 6
        (List.replicate 12 0)).2.1).2.2 = true := by
  decide

/-- C7 (amended): with an all-zero-or-valid cache slot for the selected
profile, a call counts exactly the entries before the sentinel whose
action type lies in the degenerate range
`[Action_Preset_10, Action_Preset_10]` (0 for a profile with no such
entry, 1 for exactly one); a nonzero result is cached for the selection
and a later call returns it without rescanning, while a zero result is
indistinguishable from the uninitialized marker, so a later call scans
the profile again (and again returns 0). -/
theorem presetButtonsConfigured_cache (B : Nat → List KeyMap) (sel : Nat)
    (cache : List Nat) (hsel : sel < cache.length)
    (hc : cache.getD sel 0 = 0) :
    (presetButtonsConfigured B sel cache).1 =
      countPresetButtons (B sel) % 256
    ∧ (presetButtonsConfigured B sel cache).2.2 = true
    ∧ countPresetButtons (B sel) =
        List.countP (fun k => k.actionType == Action_Preset_10)
          (List.takeWhile (fun k => !(k.irCode == 0)) (B sel))
    ∧ ((presetButtonsConfigured B sel cache).1 ≠ 0 →
        presetButtonsConfigured B sel
            (presetButtonsConfigured B sel cache).2.1 =
          ((presetButtonsConfigured B sel cache).1,
           (presetButtonsConfigured B sel cache).2.1, false))
    ∧ ((presetButtonsConfigured B sel cache).1 = 0 →
        presetButtonsConfigured B sel
            (presetButtonsConfigured B sel cache).2.1 =
          (0, (presetButtonsConfigured B sel cache).2.1, true)) := by
  have h1 : presetButtonsConfigured B sel cache =
      (countPresetButtons (B sel) % 256,
       cache.set sel (countPresetButtons (B sel) % 256), true) := by
    unfold presetButtonsConfigured
    rw [if_pos hc]
  refine ⟨by rw [h1], by rw [h1],
    countPresetButtons_eq_countP (B sel), ?_, ?_⟩
  · intro hne
    rw [h1] at hne ⊢
    dsimp only at hne ⊢
    unfold presetButtonsConfigured
    rw [if_neg (by rw [getD_set_self cache sel _ hsel]; exact hne),
        getD_set_self cache sel _ hsel]
  · intro hz
    rw [h1] at hz ⊢
    dsimp only at hz ⊢
    unfold presetButtonsConfigured
    rw [getD_set_self cache sel _ hsel, if_pos hz, hz]
    dsimp only
    rw [List.set_set]

/-- C7 witness: a profile with exactly one tenth-preset entry: the first
call scans and returns 1, and the second call returns the cached 1
without rescanning. -/
theorem presetButtonsConfigured_cache_instance :
    (presetButtonsConfigured (fun _ => [⟨9, 27⟩, ⟨0, 0⟩]) 1 [0, 0]).1 =
      countPresetButtons [⟨9, 27⟩, ⟨0, 0⟩] % 256
    ∧ (presetButtonsConfigured (fun _ => [⟨9, 27⟩, ⟨0, 0⟩]) 1 [0, 0]).2.2 = true
    ∧ presetButtonsConfigured (fun _ => [⟨9, 27⟩, ⟨0, 0⟩]) 1
          (presetButtonsConfigured (fun _ => [⟨9, 27⟩, ⟨0, 0⟩]) 1 [0, 0]).2.1 =
        ((presetButtonsConfigured (fun _ => [⟨9, 27⟩, ⟨0, 0⟩]) 1 [0, 0]).1,
         (presetButtonsConfigured (fun _ => [⟨9, 27⟩, ⟨0, 0⟩]) 1 [0, 0]).2.1,
         false) :=
  ⟨(presetButtonsConfigured_cache (fun _ => [⟨9, 27⟩, ⟨0, 0⟩]) 1 [0, 0]
      (by decide) (by decide)).1,
   (presetButtonsConfigured_cache (fun _ => [⟨9, 27⟩, ⟨0, 0⟩]) 1 [0, 0]
      (by decide) (by decide)).2.1,
   (presetButtonsConfigured_cache (fun _ => [⟨9, 27⟩, ⟨0, 0⟩]) 1 [0, 0]
      (by decide) (by decide)).2.2.2.1 (by decide)⟩

lemma dec255_mod (M cur : Nat) (hM0 : 0 < M) (hM : M ≤ 256) (hcur : cur < 256) :
    ((cur % 256 + 255 % 256) % M) % 256 = (cur + 255) % M
    ∧ ((cur + 255) % M = (cur + (M - 1)) % M ↔ M ∣ 256) := by
  have hlt : (cur + 255) % M < 256 := lt_of_lt_of_le (Nat.mod_lt _ hM0) hM
  constructor
  · rw [Nat.mod_eq_of_lt hcur, Nat.mod_eq_of_lt (by omega : (255 : Nat) < 256),
        Nat.mod_eq_of_lt hlt]
  · constructor
    · intro heq
      have h1 : Nat.ModEq M (cur + (M - 1)) (cur + 255) := heq.symm
      have h2 : M ∣ (cur + 255) - (cur + (M - 1)) :=
        (Nat.modEq_iff_dvd' (by omega)).mp h1
      have h3 : (cur + 255) - (cur + (M - 1)) = 256 - M := by omega
      rw [h3] at h2
      have h4 : (256 - M) + M = 256 := by omega
      calc M ∣ (256 - M) + M := Nat.dvd_add h2 dvd_rfl
        _ = 256 := h4
    · intro hdvd
      have h2 : M ∣ 256 - M := Nat.dvd_sub' hdvd dvd_rfl
      have h1 : Nat.ModEq M (cur + (M - 1)) (cur + 255) :=
        (Nat.modEq_iff_dvd' (by omega)).mpr
          (by rw [show (cur + 255) - (cur + (M - 1)) = 256 - M by omega]; exact h2)
      exact h1.symm

/-- C10: "Prev Preset" passes its -1 step through a `uint8_t` offset,
so for a current effect index below 256 it stores
`(current + 255) % MODE_COUNT`, and (given `0 < MODE_COUNT ≤ 256`) this
equals decrementing by one modulo `MODE_COUNT` exactly when
`MODE_COUNT` divides 256; the analogous property holds for
"Prev Palette" with the palette count. -/
theorem actionDec_uint8_offset (M P cur pal : Nat)
    (hM0 : 0 < M) (hM : M ≤ 256) (hcur : cur < 256)
    (hP0 : 0 < P) (hP : P ≤ 256) (hpal : pal < 256) :
    actionDecPreset M cur = (cur + 255) % M
    ∧ (actionDecPreset M cur = (cur + (M - 1)) % M ↔ M ∣ 256)
    ∧ actionDecPalette P pal = (pal + 255) % P
    ∧ (actionDecPalette P pal = (pal + (P - 1)) % P ↔ P ∣ 256) := by
  obtain ⟨he1, hi1⟩ := dec255_mod M cur hM0 hM hcur
  obtain ⟨he2, hi2⟩ := dec255_mod P pal hP0 hP hpal
  have g1 : actionDecPreset M cur = (cur + 255) % M := he1
  have g2 : actionDecPalette P pal = (pal + 255) % P := he2
  exact ⟨g1, by rw [g1]; exact hi1, g2, by rw [g2]; exact hi2⟩

/-- C10 witness: with a mode count of 8 (which divides 256) the -1 step
from index 5 lands on `(5 + 255) % 8 = (5 + 7) % 8 = 4`, and with a
palette count of 10 (which does not divide 256) the -1 step from index
3 lands on `(3 + 255) % 10 = 8`, not `(3 + 9) % 10 = 2`. -/
theorem actionDec_uint8_offset_instance :
    actionDecPreset 8 5 = (5 + 255) % 8
    ∧ (actionDecPreset 8 5 = (5 + (8 - 1)) % 8 ↔ (8 : Nat) ∣ 256)
    ∧ actionDecPalette 10 3 = (3 + 255) % 10
    ∧ (actionDecPalette 10 3 = (3 + (10 - 1)) % 10 ↔ (10 : Nat) ∣ 256) :=
  actionDec_uint8_offset 8 10 5 3 (by decide) (by decide) (by decide)
    (by decide) (by decide) (by decide)

end WledIR
